import Mathlib

/-!
Shallow embedding of the RAG page orchestrator (`src/src/pages/RAG.tsx`)
and its transport boundary (`src/src/lib/axiosInstance.tsx`).

The page keeps its state in `useState` hooks; we collect those hooks into
one record `RagState`.  Each async handler (`loadRag`, `clearRag`,
`addRag`, `searchRag`, `benchmarkRag`) is embedded as a pure function from
the pre-state and the outcome of its network round-trip to the post-state,
paired with the list of HTTP requests it issued.  The code performs no
true parallelism: all state mutation is atomic between the `await`
suspension points, so each handler is further split into its atomic
phases (the code before the `await`, and the completion code after it),
and interleavings of in-flight operations are modelled as lists of phase
events folded over the state (`runEvents`).

Numbers that the page only stores, forwards and prints (`topK`,
`similarity`, metric fields) are embedded as rationals; `ratShow` models
the JavaScript number-to-string conversion used in template literals on
the decimal-representable values that actually occur.
-/

/-- A fetched document, from the TS type `RagDoc = { id: string; text: string }`. -/
structure RagDoc where
  id : String
  text : String
deriving DecidableEq, Repr

/-- `index_size` sub-record of the benchmark payload (TS `RagMetrics.index_size`). -/
structure IndexSize where
  index_file_mb : ℚ
  metadata_file_mb : ℚ
  total_mb : ℚ
deriving DecidableEq, Repr

/-- `memory` sub-record of the benchmark payload (TS `RagMetrics.memory`). -/
structure MemoryStats where
  after_indexing_rss_mb : ℚ
  baseline_rss_mb : ℚ
  indexing_increase_mb : ℚ
deriving DecidableEq, Repr

/-- `rag_impact` sub-record; in the TS interface every field is optional. -/
structure RagImpact where
  skipped : Option String
  answer_length_diff : Option ℚ
  answer_with_rag : Option String
  answer_without_rag : Option String
  contexts_used : Option ℚ
  inference_time_with_rag_s : Option ℚ
  inference_time_without_rag_s : Option ℚ
  query : Option String
  rag_overhead_s : Option ℚ
deriving DecidableEq, Repr

/-- `relevance` sub-record of the benchmark payload. -/
structure Relevance where
  avg_recall_at_3 : ℚ
  perfect_recalls : ℚ
  queries_evaluated : ℚ
deriving DecidableEq, Repr

/-- `restoration` sub-record of the benchmark payload. -/
structure Restoration where
  original_doc_count : ℚ
  restored_doc_count : ℚ
deriving DecidableEq, Repr

/-- `retrieval_performance` sub-record; `topk_avg_times_ms` is a
string-keyed map, kept in response order. -/
structure RetrievalPerformance where
  avg_query_time_ms : ℚ
  max_query_time_ms : ℚ
  min_query_time_ms : ℚ
  topk_avg_times_ms : List (String × ℚ)
deriving DecidableEq, Repr

/-- `vram` sub-record of the benchmark payload. -/
structure Vram where
  after_indexing_used_mb : ℚ
  baseline_used_mb : ℚ
deriving DecidableEq, Repr

/-- The decoded `/rag_metrics` response as it exists at runtime.  The TS
interface `RagMetrics` declares the seven sub-records mandatory, but that
is a compile-time annotation only: the transport layer performs no runtime
validation, and `benchmarkRag` stores `res.data` without checking it.  A
faithful embedding of the runtime value therefore makes every sub-record
optional, so that payloads with missing sub-records are expressible. -/
structure RawRagMetrics where
  documents_indexed : Option ℚ
  index_size : Option IndexSize
  indexing_time_s : Option ℚ
  memory : Option MemoryStats
  ok : Option Bool
  rag_impact : Option RagImpact
  relevance : Option Relevance
  restoration : Option Restoration
  retrieval_performance : Option RetrievalPerformance
  vram : Option Vram
deriving DecidableEq, Repr

/-- Outcome of one HTTP round-trip: a decoded payload, or a failure
carrying the human-readable message the catch block would compute
(for the benchmark this is `err.response.data.error || err.message`,
for the others `String(e.message || e)`). -/
inductive FetchResult (α : Type) where
  | ok (val : α)
  | err (msg : String)
deriving DecidableEq, Repr

/-- The HTTP requests the page can issue through the shared transport
client (base URL `http://localhost:5005/`, default timeout 10 s; the
benchmark call overrides the timeout to 120 s). -/
inductive Request where
  | ragList
  | ragClear
  | ragAdd (text : String)
  | ragSearch (query : String) (top_k : ℚ) (similarity_threshold : ℚ)
  | ragMetrics (llm_name : Option String)
deriving DecidableEq, Repr

/-- The page state: one field per `useState` hook of `RAGPage`, in source
order. -/
structure RagState where
  docs : List RagDoc
  loading : Bool
  logs : List String
  newText : String
  query : String
  topK : ℚ
  similarity : ℚ
  searching : Bool
  searchResults : List String
  metrics : Option RawRagMetrics
  isBenchmarking : Bool
  benchmarkLlm : String
  showLlmOption : Bool
deriving DecidableEq, Repr

/-- The value of the numeric literal `0.35` in the source (the default
similarity threshold), given as a raw reduced fraction so that it
evaluates under kernel reduction; `rat035_eq` below identifies it with
the scientific literal. -/
def rat035 : ℚ := ⟨7, 20, by decide, by decide⟩

/-- The initial state of every hook (`useState` arguments in the source). -/
def initialState : RagState :=
  { docs := []
    loading := false
    logs := []
    newText := ""
    query := ""
    topK := 3
    similarity := rat035
    searching := false
    searchResults := []
    metrics := none
    isBenchmarking := false
    benchmarkLlm := "llama"
    showLlmOption := false }

/-- Fractional digits of `num / den` (with `num < den`), at most `fuel`
digits, dropping the tail once the remainder is zero.  Used by `ratShow`. -/
def fracDigits : Nat → Nat → Nat → String
  | 0, _, _ => ""
  | _ + 1, 0, _ => ""
  | fuel + 1, num, den =>
    toString (num * 10 / den) ++ fracDigits fuel (num * 10 % den) den

/-- Model of the JavaScript number-to-string conversion in template
literals, on decimal-representable rationals: integer values print with
no point (`3` ↦ `"3"`), others with their decimal expansion
(`0.35` ↦ `"0.35"`). -/
def ratShow (q : ℚ) : String :=
  let sign := if q < 0 then "-" else ""
  let n := q.num.natAbs
  let ip := n / q.den
  let rest := n % q.den
  if rest = 0 then sign ++ toString ip
  else sign ++ toString ip ++ "." ++ fracDigits 10 rest q.den

/-- Model of `String.prototype.trim` (JS `text.trim()` / `query.trim()`):
strip leading and trailing whitespace.  Structurally recursive so that it
evaluates by kernel reduction (core `String.trim` is defined by
well-founded recursion on byte positions and does not). -/
def jsTrim (s : String) : String :=
  ⟨((s.data.dropWhile Char.isWhitespace).reverse.dropWhile Char.isWhitespace).reverse⟩

/-- `loadRag`, code before the `await` (line 72): set the busy flag. -/
def loadRagStart (s : RagState) : RagState := { s with loading := true }

/-- `loadRag`, code after the `await` (lines 74-81): on success store
`res.data?.documents ?? []` and log the count; on failure log the error.
The `finally` clause clears `loading` on both paths. -/
def loadRagComplete (s : RagState) (r : FetchResult (Option (List RagDoc))) : RagState :=
  match r with
  | .ok docsField =>
    let list := docsField.getD []
    { s with docs := list
             logs := s.logs ++ ["Loaded " ++ toString list.length ++ " RAG documents"]
             loading := false }
  | .err m =>
    { s with logs := s.logs ++ ["Failed to load RAG: " ++ m]
             loading := false }

/-- The whole `loadRag` handler: start phase, the GET `/rag/list`
round-trip, completion phase. -/
def loadRag (s : RagState) (r : FetchResult (Option (List RagDoc))) :
    RagState × List Request :=
  (loadRagComplete (loadRagStart s) r, [Request.ragList])

/-- `clearRag`, code after the `await` (lines 87-91): on success empty
`docs` and log; on failure log the error.  There is no busy flag. -/
def clearRagComplete (s : RagState) (r : FetchResult Unit) : RagState :=
  match r with
  | .ok _ =>
    { s with docs := []
             logs := s.logs ++ ["Cleared RAG documents"] }
  | .err m =>
    { s with logs := s.logs ++ ["Failed to clear RAG: " ++ m] }

/-- The whole `clearRag` handler: the POST `/rag/clear` round-trip, then
the completion phase. -/
def clearRag (s : RagState) (r : FetchResult Unit) : RagState × List Request :=
  (clearRagComplete s r, [Request.ragClear])

/-- `addRag`, code after the `await` of the POST (lines 99-103): on
success log and clear the input (the triggered `loadRag` is separate);
on failure log the error and keep the input. -/
def addRagComplete (s : RagState) (r : FetchResult Unit) : RagState :=
  match r with
  | .ok _ =>
    { s with logs := s.logs ++ ["Added new RAG document"]
             newText := "" }
  | .err m =>
    { s with logs := s.logs ++ ["Failed to add RAG doc: " ++ m] }

/-- The whole `addRag` handler (lines 94-105): a no-op when the trimmed
input is empty (the JS guard `if (!text) return`), otherwise the POST
`/rag/add`; on success it awaits a full `loadRag` run (`loadR` is that
inner round-trip's outcome). -/
def addRag (s : RagState) (r : FetchResult Unit)
    (loadR : FetchResult (Option (List RagDoc))) : RagState × List Request :=
  let text := jsTrim s.newText
  if text = "" then (s, [])
  else
    match r with
    | .ok _ =>
      let s1 := addRagComplete s (.ok ())
      let p := loadRag s1 loadR
      (p.1, Request.ragAdd text :: p.2)
    | .err m => (addRagComplete s (.err m), [Request.ragAdd text])

/-- `searchRag`, code before the `await` (line 111): set the busy flag. -/
def searchRagStart (s : RagState) : RagState := { s with searching := true }

/-- `searchRag`, code after the `await` (lines 117-123): on success store
`res.data?.results ?? []` and log the count with the current `topK` and
`similarity`; on failure log the error.  The `finally` clause clears
`searching` on both paths. -/
def searchRagComplete (s : RagState) (r : FetchResult (Option (List String))) :
    RagState :=
  match r with
  | .ok resultsField =>
    let results := resultsField.getD []
    { s with searchResults := results
             logs := s.logs ++
               ["Search found " ++ toString results.length ++ " results (top_k=" ++
                 ratShow s.topK ++ ", thr=" ++ ratShow s.similarity ++ ")"]
             searching := false }
  | .err m =>
    { s with logs := s.logs ++ ["Failed to search RAG: " ++ m]
             searching := false }

/-- The whole `searchRag` handler (lines 107-125): a no-op when the
trimmed query is empty (the JS guard `if (!q) return`), otherwise the
POST `/rag/search` carrying the current `topK` and `similarity` with no
range validation, then the completion phase. -/
def searchRag (s : RagState) (r : FetchResult (Option (List String))) :
    RagState × List Request :=
  let q := jsTrim s.query
  if q = "" then (s, [])
  else
    (searchRagComplete (searchRagStart s) r,
      [Request.ragSearch q s.topK s.similarity])

/-- The benchmark-type label (line 130). -/
def benchmarkType (s : RagState) (withLlm : Bool) : String :=
  if withLlm then "RAG with LLM (" ++ s.benchmarkLlm ++ ")" else "RAG without LLM"

/-- `benchmarkRag`, code before the `await` (lines 128-131): set the busy
flag, clear the stored metrics, log the start line. -/
def benchmarkRagStart (s : RagState) (withLlm : Bool) : RagState :=
  { s with isBenchmarking := true
           metrics := none
           logs := s.logs ++ ["Starting benchmark: " ++ benchmarkType s withLlm ++ "..."] }

/-- `benchmarkRag`, code after the `await` (lines 140-146): on success
store the raw payload unchecked (`setMetrics(res.data)`) and log success;
on failure log the error.  The `finally` clause clears `isBenchmarking`
on both paths. -/
def benchmarkRagComplete (s : RagState) (r : FetchResult RawRagMetrics) : RagState :=
  match r with
  | .ok raw =>
    { s with metrics := some raw
             logs := s.logs ++ ["Benchmark completed successfully!"]
             isBenchmarking := false }
  | .err m =>
    { s with logs := s.logs ++ ["Benchmark error: " ++ m]
             isBenchmarking := false }

/-- The whole `benchmarkRag` handler (lines 127-148): start phase, the
POST `/rag_metrics` (body `{}` without LLM, `{ llm_name }` with), then
the completion phase. -/
def benchmarkRag (s : RagState) (withLlm : Bool) (r : FetchResult RawRagMetrics) :
    RagState × List Request :=
  (benchmarkRagComplete (benchmarkRagStart s withLlm) r,
    [Request.ragMetrics (if withLlm then some s.benchmarkLlm else none)])

/-- Atomic phases of in-flight operations, for reasoning about
interleavings.  Each constructor is one maximal run of synchronous code
between suspension points of a handler. -/
inductive Ev where
  | loadStart
  | loadDone (r : FetchResult (Option (List RagDoc)))
  | clearDone (r : FetchResult Unit)
  | addDone (r : FetchResult Unit)
  | searchStart
  | searchDone (r : FetchResult (Option (List String)))
  | benchStart (withLlm : Bool)
  | benchDone (r : FetchResult RawRagMetrics)
deriving DecidableEq, Repr

/-- Effect of one atomic phase on the page state. -/
def step (s : RagState) : Ev → RagState
  | .loadStart => loadRagStart s
  | .loadDone r => loadRagComplete s r
  | .clearDone r => clearRagComplete s r
  | .addDone r => addRagComplete s r
  | .searchStart => searchRagStart s
  | .searchDone r => searchRagComplete s r
  | .benchStart w => benchmarkRagStart s w
  | .benchDone r => benchmarkRagComplete s r

/-- Run an interleaving of atomic phases over the state. -/
def runEvents (s : RagState) (evs : List Ev) : RagState := evs.foldl step s

/-- Refresh-class phases: a `loadRag` start or completion (a plain
refresh, or the implicit refresh a successful `addRag` awaits). -/
def isRefreshEv : Ev → Bool
  | .loadStart => true
  | .loadDone _ => true
  | _ => false

/-- Benchmark-completion phases (the only phase that can set `metrics`
to a non-empty value). -/
def isBenchDone : Ev → Bool
  | .benchDone _ => true
  | _ => false

/-- Log line of a `loadRag` completion, as a function of the round-trip
outcome. -/
def loadLogLine (r : FetchResult (Option (List RagDoc))) : String :=
  match r with
  | .ok p => "Loaded " ++ toString (p.getD []).length ++ " RAG documents"
  | .err m => "Failed to load RAG: " ++ m

/-- Log line of a `clearRag` completion. -/
def clearLogLine (r : FetchResult Unit) : String :=
  match r with
  | .ok _ => "Cleared RAG documents"
  | .err m => "Failed to clear RAG: " ++ m

/-- Log line of a `searchRag` completion, given the state holding the
current `topK` and `similarity`. -/
def searchLogLine (s : RagState) (r : FetchResult (Option (List String))) : String :=
  match r with
  | .ok p =>
    "Search found " ++ toString (p.getD []).length ++ " results (top_k=" ++
      ratShow s.topK ++ ", thr=" ++ ratShow s.similarity ++ ")"
  | .err m => "Failed to search RAG: " ++ m

/-- Log line of a `benchmarkRag` completion. -/
def benchLogLine (r : FetchResult RawRagMetrics) : String :=
  match r with
  | .ok _ => "Benchmark completed successfully!"
  | .err m => "Benchmark error: " ++ m

/-- Log line of an `addRag` POST completion (the add's own line; a
triggered refresh logs separately). -/
def addLogLine (r : FetchResult Unit) : String :=
  match r with
  | .ok _ => "Added new RAG document"
  | .err m => "Failed to add RAG doc: " ++ m

/-- A fully-populated `memory` sub-record, for concrete payloads. -/
def sampleMemory : MemoryStats :=
  { after_indexing_rss_mb := 1, baseline_rss_mb := 1, indexing_increase_mb := 0 }

/-- A fully-populated benchmark payload with `memory` absent: the decoded
value of a response missing one of the seven mandatory sub-records. -/
def rawMissingMemory : RawRagMetrics :=
  { documents_indexed := some 1
    index_size := some { index_file_mb := 1, metadata_file_mb := 1, total_mb := 2 }
    indexing_time_s := some 1
    memory := none
    ok := some true
    rag_impact := none
    relevance := some { avg_recall_at_3 := 1, perfect_recalls := 1, queries_evaluated := 1 }
    restoration := some { original_doc_count := 1, restored_doc_count := 1 }
    retrieval_performance := some
      { avg_query_time_ms := 1, max_query_time_ms := 1, min_query_time_ms := 1
        topk_avg_times_ms := [("3", 1)] }
    vram := some { after_indexing_used_mb := 1, baseline_used_mb := 1 } }

/-- A benchmark payload with all seven sub-records present. -/
def rawFull : RawRagMetrics := { rawMissingMemory with memory := some sampleMemory }

theorem rat035_eq : (0.35 : ℚ) = rat035 := by
  rw [rat035, Rat.mk'_eq_divInt, Rat.divInt_eq_div]; norm_num

theorem runEvents_docs_of_loadStart (post : List Ev)
    (hpost : ∀ e ∈ post, e = Ev.loadStart) (s : RagState) :
    (runEvents s post).docs = s.docs := by
  induction post generalizing s with
  | nil => rfl
  | cons e t ih =>
    have he : e = Ev.loadStart := hpost e (List.mem_cons_self e t)
    subst he
    have ht : ∀ x ∈ t, x = Ev.loadStart := fun x hx => hpost x (List.mem_cons_of_mem _ hx)
    simpa [runEvents, step, loadRagStart] using ih ht (loadRagStart s)

theorem step_metrics_none (s : RagState) (e : Ev) (h : isBenchDone e = false)
    (hm : s.metrics = none) : (step s e).metrics = none := by
  cases e with
  | loadStart => simpa [step, loadRagStart] using hm
  | loadDone r => cases r <;> simpa [step, loadRagComplete] using hm
  | clearDone r => cases r <;> simpa [step, clearRagComplete] using hm
  | addDone r => cases r <;> simpa [step, addRagComplete] using hm
  | searchStart => simpa [step, searchRagStart] using hm
  | searchDone r => cases r <;> simpa [step, searchRagComplete] using hm
  | benchStart w => simp [step, benchmarkRagStart]
  | benchDone r => simp [isBenchDone] at h

theorem runEvents_metrics_none (evs : List Ev)
    (h : ∀ e ∈ evs, isBenchDone e = false) (s : RagState)
    (hm : s.metrics = none) : (runEvents s evs).metrics = none := by
  induction evs generalizing s with
  | nil => exact hm
  | cons e t ih =>
    have he := h e (List.mem_cons_self e t)
    have ht : ∀ x ∈ t, isBenchDone x = false := fun x hx => h x (List.mem_cons_of_mem _ hx)
    simpa [runEvents] using ih ht (step s e) (step_metrics_none s e he hm)

/-- Claim C1 (corrected: the code performs no payload validation).  For
every transport-successful benchmark response, including one missing any
of the seven mandatory sub-records, `benchmarkRag` stores the raw payload
wholesale as the metrics value for rendering and appends the success
line; the response is never treated as a failure on payload grounds. -/
theorem ragC1_no_payload_validation (s : RagState) (w : Bool) (raw : RawRagMetrics) :
    (benchmarkRag s w (FetchResult.ok raw)).1.metrics = some raw ∧
    (benchmarkRag s w (FetchResult.ok raw)).1.logs =
      s.logs ++ ["Starting benchmark: " ++ benchmarkType s w ++ "...",
        "Benchmark completed successfully!"] := by
  obtain ⟨d, ld, lg, nt, q, tk, sim, se, sr, mt, ib, bl, so⟩ := s
  constructor
  · rfl
  · simp [benchmarkRag, benchmarkRagStart, benchmarkRagComplete]

/-- Claim C1, counterexample to the claim as stated: a benchmark response
whose payload is missing the `memory` sub-record is not handled as a
failure — the partial payload is stored as the metrics value and the log
records success, not a failure line. -/
theorem ragC1_counterexample :
    rawMissingMemory.memory = none ∧
    (benchmarkRag initialState false (FetchResult.ok rawMissingMemory)).1.metrics =
      some rawMissingMemory ∧
    (benchmarkRag initialState false (FetchResult.ok rawMissingMemory)).1.logs =
      ["Starting benchmark: RAG without LLM...", "Benchmark completed successfully!"] := by
  decide

/-- Claim C2 (confirmed): in any interleaving of refresh-class phases
(refresh starts and completions, including the implicit refresh awaited
by a successful add), the final `docs` equals the list returned by the
completion that applied last, regardless of start order: `setDocs` is
unconditional, so the last completion to run wins. -/
theorem ragC2_last_completed_wins (s : RagState) (pre post : List Ev)
    (p : Option (List RagDoc))
    (_hpre : ∀ e ∈ pre, isRefreshEv e = true)
    (hpost : ∀ e ∈ post, e = Ev.loadStart) :
    (runEvents s (pre ++ Ev.loadDone (FetchResult.ok p) :: post)).docs = p.getD [] := by
  have h1 : runEvents s (pre ++ Ev.loadDone (FetchResult.ok p) :: post) =
      runEvents (step (runEvents s pre) (Ev.loadDone (FetchResult.ok p))) post := by
    simp [runEvents, List.foldl_append]
  rw [h1, runEvents_docs_of_loadStart post hpost]
  simp [step, loadRagComplete]

/-- Claim C2, witness: refresh A starts, refresh B starts, B completes
first with document `"1"`, then A completes with document `"2"`; the
final `docs` is A's result (last completed), not B's. -/
theorem ragC2_witness :
    (runEvents initialState
      ([Ev.loadStart, Ev.loadStart,
          Ev.loadDone (FetchResult.ok (some [⟨"1", "b"⟩]))] ++
        Ev.loadDone (FetchResult.ok (some [⟨"2", "a"⟩])) :: [])).docs =
      [⟨"2", "a"⟩] :=
  ragC2_last_completed_wins initialState _ _ _ (by decide) (by simp)

/-- Claim C3 (corrected: the code performs no range validation).  For
every search with a non-empty trimmed query, the request is sent carrying
the current `topK` and `similarityThreshold` verbatim: the only
client-side guard before sending is the non-empty-query check, and
out-of-range parameters do not prevent the network call. -/
theorem ragC3_no_range_validation (s : RagState) (r : FetchResult (Option (List String)))
    (hq : jsTrim s.query ≠ "") :
    (searchRag s r).2 = [Request.ragSearch (jsTrim s.query) s.topK s.similarity] := by
  simp [searchRag, hq]

/-- Claim C3, counterexample to the claim as stated: with `topK = 0`
(violating `top_k ≥ 1`) and `similarityThreshold = 2` (violating
`[0,1]`), the search request is still sent to the network. -/
theorem ragC3_counterexample :
    ¬ (1 ≤ ({ initialState with query := "x", topK := 0, similarity := 2 } : RagState).topK) ∧
    ¬ (({ initialState with query := "x", topK := 0, similarity := 2 } : RagState).similarity ≤ 1) ∧
    (searchRag { initialState with query := "x", topK := 0, similarity := 2 }
      (FetchResult.ok none)).2 = [Request.ragSearch "x" 0 2] := by
  decide

/-- Claim C3, witness for the corrected statement at a concrete state. -/
theorem ragC3_witness :
    (searchRag { initialState with query := "x", topK := 0, similarity := 2 }
      (FetchResult.ok none)).2 = [Request.ragSearch "x" 0 2] :=
  ragC3_no_range_validation
    { initialState with query := "x", topK := 0, similarity := 2 }
    (FetchResult.ok none) (by decide)

/-- Claim C5 (corrected: the log label is `thr=`, not `threshold=`).
For every successful search returning `results`, `searchResults` is
replaced by the returned list (possibly empty) and the appended log line
is `"Search found {n} results (top_k={k}, thr={t})"`. -/
theorem ragC5_search_success (s : RagState) (results : List String)
    (hq : jsTrim s.query ≠ "") :
    (searchRag s (FetchResult.ok (some results))).1.searchResults = results ∧
    (searchRag s (FetchResult.ok (some results))).1.logs =
      s.logs ++ ["Search found " ++ toString results.length ++ " results (top_k=" ++
        ratShow s.topK ++ ", thr=" ++ ratShow s.similarity ++ ")"] := by
  constructor <;> simp [searchRag, hq, searchRagComplete, searchRagStart]

/-- Claim C5, counterexample to the claim as stated: a 0-result search
with `topK = 3`, `threshold = 0.35` yields `searchResults = []` but the
log line reads `thr=0.35`, not `threshold=0.35`. -/
theorem ragC5_counterexample :
    (searchRag { initialState with query := "x" }
      (FetchResult.ok (some []))).1.searchResults = [] ∧
    (searchRag { initialState with query := "x" } (FetchResult.ok (some []))).1.logs =
      ["Search found 0 results (top_k=3, thr=0.35)"] ∧
    "Search found 0 results (top_k=3, thr=0.35)" ≠
      "Search found 0 results (top_k=3, threshold=0.35)" := by
  decide

/-- Claim C5, witness for the corrected statement at a concrete state. -/
theorem ragC5_witness :
    (searchRag { initialState with query := "x" }
      (FetchResult.ok (some ([] : List String)))).1.searchResults = ([] : List String) ∧
    (searchRag { initialState with query := "x" }
        (FetchResult.ok (some ([] : List String)))).1.logs =
      ({ initialState with query := "x" } : RagState).logs ++
        ["Search found " ++ toString (List.length ([] : List String)) ++
          " results (top_k=" ++ ratShow ({ initialState with query := "x" } : RagState).topK ++
          ", thr=" ++ ratShow ({ initialState with query := "x" } : RagState).similarity ++ ")"] :=
  ragC5_search_success { initialState with query := "x" } [] (by decide)

/-- Claim C6 (corrected: the log entry is `"Loaded {n} RAG documents"`,
not `"Loaded {n} documents"`).  For every successful refresh returning a
list of length `n`, `docs` is replaced by that list (so the stored count
equals `n`) and the appended log entry records that exact count. -/
theorem ragC6_refresh_success (s : RagState) (list : List RagDoc) :
    (loadRag s (FetchResult.ok (some list))).1.docs = list ∧
    (loadRag s (FetchResult.ok (some list))).1.docs.length = list.length ∧
    (loadRag s (FetchResult.ok (some list))).1.logs =
      s.logs ++ ["Loaded " ++ toString list.length ++ " RAG documents"] := by
  refine ⟨rfl, rfl, ?_⟩
  simp [loadRag, loadRagComplete, loadRagStart]

/-- Claim C6, counterexample to the claim as stated: a successful refresh
returning one document logs `"Loaded 1 RAG documents"`, which is not the
claimed exact string `"Loaded 1 documents"`. -/
theorem ragC6_counterexample :
    (loadRag initialState (FetchResult.ok (some [⟨"1", "hello"⟩]))).1.logs =
      ["Loaded 1 RAG documents"] ∧
    "Loaded 1 RAG documents" ≠ "Loaded 1 documents" := by
  decide

/-- Claim C9 (confirmed): for every input whose trimmed text is empty,
`addRag` is a silent no-op — state unchanged, no request issued, no log
entry — and likewise `searchRag` for every query whose trimmed value is
empty. -/
theorem ragC9_empty_input_noop (s : RagState) (ra : FetchResult Unit)
    (lr : FetchResult (Option (List RagDoc))) (rs : FetchResult (Option (List String)))
    (ht : jsTrim s.newText = "") (hq : jsTrim s.query = "") :
    addRag s ra lr = (s, []) ∧ searchRag s rs = (s, []) := by
  constructor
  · simp [addRag, ht]
  · simp [searchRag, hq]

/-- Claim C9, witness at the initial state (empty input and query). -/
theorem ragC9_witness :
    addRag initialState (FetchResult.err "x") (FetchResult.err "y") = (initialState, []) ∧
    searchRag initialState (FetchResult.err "z") = (initialState, []) :=
  ragC9_empty_input_noop initialState (FetchResult.err "x") (FetchResult.err "y")
    (FetchResult.err "z") (by decide) (by decide)

/-- Claim C10 (confirmed): a success response whose expected payload
field is missing or null is treated as an empty list rather than a
failure: refresh sets `docs := []` and logs a line reporting 0 documents;
search (with a non-empty query) sets `searchResults := []` and logs a
line reporting 0 results. -/
theorem ragC10_absent_field_empty (s : RagState) (hq : jsTrim s.query ≠ "") :
    (loadRag s (FetchResult.ok none)).1.docs = [] ∧
    (loadRag s (FetchResult.ok none)).1.logs = s.logs ++ ["Loaded 0 RAG documents"] ∧
    (searchRag s (FetchResult.ok none)).1.searchResults = [] ∧
    (searchRag s (FetchResult.ok none)).1.logs =
      s.logs ++ ["Search found 0 results (top_k=" ++ ratShow s.topK ++ ", thr=" ++
        ratShow s.similarity ++ ")"] := by
  have h1 : ("Loaded " ++ toString (0 : Nat) ++ " RAG documents" : String) =
      "Loaded 0 RAG documents" := by decide
  have h2 : ("Search found " ++ toString (0 : Nat) ++ " results (top_k=" : String) =
      "Search found 0 results (top_k=" := by decide
  refine ⟨rfl, ?_, ?_, ?_⟩
  · simp only [loadRag, loadRagComplete, loadRagStart, Option.getD, List.length_nil, h1]
  · simp [searchRag, hq, searchRagComplete, searchRagStart]
  · simp only [searchRag, searchRagComplete, searchRagStart, if_neg hq, Option.getD,
      List.length_nil, h2]

/-- Claim C10, witness at a concrete state with a non-empty query. -/
theorem ragC10_witness :
    (loadRag { initialState with query := "x" } (FetchResult.ok none)).1.docs = [] ∧
    (loadRag { initialState with query := "x" } (FetchResult.ok none)).1.logs =
      ({ initialState with query := "x" } : RagState).logs ++ ["Loaded 0 RAG documents"] ∧
    (searchRag { initialState with query := "x" }
      (FetchResult.ok none)).1.searchResults = [] ∧
    (searchRag { initialState with query := "x" } (FetchResult.ok none)).1.logs =
      ({ initialState with query := "x" } : RagState).logs ++
        ["Search found 0 results (top_k=" ++
          ratShow ({ initialState with query := "x" } : RagState).topK ++ ", thr=" ++
          ratShow ({ initialState with query := "x" } : RagState).similarity ++ ")"] :=
  ragC10_absent_field_empty { initialState with query := "x" } (by decide)

/-- Claim C7 (confirmed): `benchmarkRag` clears `metrics` in its start
phase — which by construction of `benchmarkRag` runs before the request
is issued — and `metrics` stays `none` across any interleaving of other
operations' phases until the benchmark's own completion: no other
operation writes `metrics`, and a second benchmark completion cannot
occur in the window because the benchmark buttons are disabled while
`isBenchmarking` is set. -/
theorem ragC7_metrics_cleared_inflight (s : RagState) (withLlm : Bool) (evs : List Ev)
    (h : ∀ e ∈ evs, isBenchDone e = false) :
    (benchmarkRagStart s withLlm).metrics = none ∧
    (runEvents (benchmarkRagStart s withLlm) evs).metrics = none :=
  ⟨rfl, runEvents_metrics_none evs h _ rfl⟩

/-- Claim C7, witness: prior metrics exist, a benchmark starts, and a
refresh, a search and a clear run in the window; metrics stays empty. -/
theorem ragC7_witness :
    (benchmarkRagStart { initialState with metrics := some rawFull } false).metrics =
      none ∧
    (runEvents (benchmarkRagStart { initialState with metrics := some rawFull } false)
        [Ev.loadStart, Ev.loadDone (FetchResult.ok none), Ev.searchStart,
          Ev.searchDone (FetchResult.err "boom"),
          Ev.clearDone (FetchResult.ok ())]).metrics = none :=
  ragC7_metrics_cleared_inflight { initialState with metrics := some rawFull } false _
    (by decide)

/-- Claim C4 (corrected: the benchmark deviates from the no-other-effects
part).  Every transport/server failure is absorbed by the handler — the
embedding is total, every failure outcome maps to a defined post-state —
and for refresh, clear, add and search the failing run's only effects are
one appended failure line and an unset busy flag (clear and add have no
busy flag): `docs`, `searchResults`, `metrics` and the input text are
untouched, as the full post-state equalities show.  The benchmark
handler, however, additionally appends its start line and has already
cleared `metrics` before the call, and does not restore it on failure. -/
theorem ragC4_failure_handling (s : RagState) (m : String)
    (ht : jsTrim s.newText ≠ "") (hq : jsTrim s.query ≠ "") :
    (loadRag s (FetchResult.err m)).1 =
      { s with logs := s.logs ++ ["Failed to load RAG: " ++ m], loading := false } ∧
    (clearRag s (FetchResult.err m)).1 =
      { s with logs := s.logs ++ ["Failed to clear RAG: " ++ m] } ∧
    (addRag s (FetchResult.err m) (FetchResult.err m)).1 =
      { s with logs := s.logs ++ ["Failed to add RAG doc: " ++ m] } ∧
    (searchRag s (FetchResult.err m)).1 =
      { s with logs := s.logs ++ ["Failed to search RAG: " ++ m], searching := false } ∧
    (benchmarkRag s false (FetchResult.err m)).1 =
      { s with metrics := none,
               logs := s.logs ++ ["Starting benchmark: RAG without LLM...",
                 "Benchmark error: " ++ m],
               isBenchmarking := false } := by
  obtain ⟨d, ld, lg, nt, q, tk, sim, se, sr, mt, ib, bl, so⟩ := s
  simp only at ht hq
  refine ⟨?_, ?_, ?_, ?_, ?_⟩
  · simp [loadRag, loadRagComplete, loadRagStart]
  · simp [clearRag, clearRagComplete]
  · simp [addRag, addRagComplete, ht]
  · simp [searchRag, searchRagComplete, searchRagStart, if_neg hq]
  · simp [benchmarkRag, benchmarkRagStart, benchmarkRagComplete, benchmarkType]

/-- Claim C4, counterexample to the claim as stated: a failed benchmark
with prior metrics does not leave `metrics` exactly as it was (it ends
cleared), and its effects are two appended log lines, not one. -/
theorem ragC4_counterexample :
    ({ initialState with metrics := some rawFull } : RagState).metrics = some rawFull ∧
    (benchmarkRag { initialState with metrics := some rawFull } false
      (FetchResult.err "timeout of 120000ms exceeded")).1.metrics = none ∧
    (benchmarkRag { initialState with metrics := some rawFull } false
        (FetchResult.err "timeout of 120000ms exceeded")).1.logs =
      ["Starting benchmark: RAG without LLM...",
        "Benchmark error: timeout of 120000ms exceeded"] := by
  decide

/-- Claim C4, witness for the corrected statement: a failed search at a
concrete state appends one failure line, unsets the busy flag, and
leaves everything else unchanged. -/
theorem ragC4_witness :
    (searchRag { initialState with newText := "doc", query := "x" }
        (FetchResult.err "Network Error")).1 =
      { ({ initialState with newText := "doc", query := "x" } : RagState) with
          logs := ({ initialState with newText := "doc", query := "x" } : RagState).logs ++
            ["Failed to search RAG: Network Error"],
          searching := false } :=
  (ragC4_failure_handling { initialState with newText := "doc", query := "x" }
    "Network Error" (by decide) (by decide)).2.2.2.1

/-- Claim C8 (corrected: benchmark appends two entries per run).  The log
is append-only — every atomic phase only appends to it — and per
completed run: refresh, clear and search append exactly one entry, add
appends exactly one entry of its own (the refresh it triggers on success
appends its separate entry), while benchmark appends exactly two, a start
line and a completion line. -/
theorem ragC8_log_append_only (s : RagState) (e : Ev)
    (rl : FetchResult (Option (List RagDoc))) (rc : FetchResult Unit)
    (lr : FetchResult (Option (List RagDoc))) (rs : FetchResult (Option (List String)))
    (w : Bool) (rb : FetchResult RawRagMetrics) (m : String)
    (ht : jsTrim s.newText ≠ "") (hq : jsTrim s.query ≠ "") :
    (∃ t, (step s e).logs = s.logs ++ t) ∧
    (loadRag s rl).1.logs = s.logs ++ [loadLogLine rl] ∧
    (clearRag s rc).1.logs = s.logs ++ [clearLogLine rc] ∧
    (addRag s (FetchResult.err m) lr).1.logs =
      s.logs ++ [addLogLine (FetchResult.err m)] ∧
    (addRag s (FetchResult.ok ()) lr).1.logs =
      s.logs ++ [addLogLine (FetchResult.ok ()), loadLogLine lr] ∧
    (searchRag s rs).1.logs = s.logs ++ [searchLogLine s rs] ∧
    (benchmarkRag s w rb).1.logs =
      s.logs ++ ["Starting benchmark: " ++ benchmarkType s w ++ "...", benchLogLine rb] := by
  refine ⟨?_, ?_, ?_, ?_, ?_, ?_, ?_⟩
  · cases e with
    | loadStart => exact ⟨[], by simp [step, loadRagStart]⟩
    | loadDone r =>
      exact ⟨[loadLogLine r], by cases r <;> simp [step, loadRagComplete, loadLogLine]⟩
    | clearDone r =>
      exact ⟨[clearLogLine r], by cases r <;> simp [step, clearRagComplete, clearLogLine]⟩
    | addDone r =>
      exact ⟨[addLogLine r], by cases r <;> simp [step, addRagComplete, addLogLine]⟩
    | searchStart => exact ⟨[], by simp [step, searchRagStart]⟩
    | searchDone r =>
      exact ⟨[searchLogLine s r], by cases r <;> simp [step, searchRagComplete, searchLogLine]⟩
    | benchStart w2 =>
      exact ⟨["Starting benchmark: " ++ benchmarkType s w2 ++ "..."],
        by simp [step, benchmarkRagStart]⟩
    | benchDone r =>
      exact ⟨[benchLogLine r], by cases r <;> simp [step, benchmarkRagComplete, benchLogLine]⟩
  · cases rl <;> simp [loadRag, loadRagComplete, loadRagStart, loadLogLine]
  · cases rc <;> simp [clearRag, clearRagComplete, clearLogLine]
  · simp [addRag, addRagComplete, addLogLine, ht]
  · cases lr <;>
      simp [addRag, addRagComplete, addLogLine, ht, loadRag, loadRagStart, loadRagComplete,
        loadLogLine]
  · cases rs <;> simp [searchRag, searchRagComplete, searchRagStart, searchLogLine, if_neg hq]
  · cases rb <;>
      simp [benchmarkRag, benchmarkRagStart, benchmarkRagComplete, benchmarkType, benchLogLine]

/-- Claim C8, counterexample to the claim as stated: a single benchmark
run from an empty log leaves two entries, so benchmark appends more than
one log entry for a single run of itself. -/
theorem ragC8_counterexample :
    (benchmarkRag initialState false (FetchResult.ok rawFull)).1.logs =
      ["Starting benchmark: RAG without LLM...", "Benchmark completed successfully!"] ∧
    (benchmarkRag initialState false (FetchResult.ok rawFull)).1.logs.length = 2 := by
  decide

/-- Claim C8, witness for the corrected statement: the benchmark conjunct
at a concrete state, showing exactly the start line and completion line
appended. -/
theorem ragC8_witness :
    (benchmarkRag { initialState with newText := "doc", query := "x" } false
        (FetchResult.err "boom")).1.logs =
      ({ initialState with newText := "doc", query := "x" } : RagState).logs ++
        ["Starting benchmark: " ++
          benchmarkType { initialState with newText := "doc", query := "x" } false ++ "...",
          benchLogLine (FetchResult.err "boom")] :=
  (ragC8_log_append_only { initialState with newText := "doc", query := "x" } Ev.loadStart
    (FetchResult.ok none) (FetchResult.ok ()) (FetchResult.ok none) (FetchResult.err "no")
    false (FetchResult.err "boom") "m" (by decide) (by decide)).2.2.2.2.2.2
